import Mathlib

/-!
Verification of the Adam optimizer of `qoc/standard/optimizers/adam.py`.

Machine floating-point numbers are modelled as real numbers, numpy arrays as
lists of reals with elementwise operations, and Python `None`-able constructor
options as `Option ℝ`.  The optimizer object is one structure holding both the
immutable configuration fields and the mutable running state
(`iteration_count`, `gradient_moment`, `gradient_square_moment`), exactly the
fields of the Python class.

Lean's total real-number division returns 0 on a zero denominator while numpy
produces `inf`/`nan`; wherever a claim depends on that difference we use
`Adam.updateChecked`, which returns `none` whenever the update evaluates a
division with zero denominator (or a square root of a negative number), the
situations in which numpy emits non-finite values in the scenarios studied
here.
-/

/-- Elementwise combination of three equal-length lists, mirroring numpy's
elementwise arithmetic over three same-shape arrays. -/
def zipWith3 {α β γ δ : Type} (f : α → β → γ → δ) : List α → List β → List γ → List δ
  | a :: as, b :: bs, c :: cs => f a b c :: zipWith3 f as bs cs
  | _, _, _ => []

/-- Model of `np.linalg.norm` on a flat array: the L2 norm. -/
noncomputable def l2norm (xs : List ℝ) : ℝ :=
  Real.sqrt ((xs.map (fun x => x ^ 2)).sum)

/-- Model of `np.clip(x, lo, hi)`, which numpy documents as
`np.minimum(hi, np.maximum(x, lo))` (so for `lo > hi` every output is `hi`). -/
def npClip (x lo hi : ℝ) : ℝ := min hi (max x lo)

/-- The Adam optimizer object of `adam.py`, with the fields of the Python
class in their documented order.  `gradient_moment` and
`gradient_square_moment` start as `[]` (Python `None`) and become zero arrays
on `run`'s reset. -/
@[ext] structure Adam where
  apply_clip_grads : Bool
  apply_learning_rate_decay : Bool
  apply_scale_grads : Bool
  beta_1 : ℝ
  beta_2 : ℝ
  clip_grads : Option ℝ
  epsilon : ℝ
  gradient_moment : List ℝ
  gradient_square_moment : List ℝ
  initial_learning_rate : ℝ
  iteration_count : ℕ
  learning_rate : ℝ
  learning_rate_decay : Option ℝ
  scale_grads : Option ℝ

/-- Model of `Adam.__init__` (positional arguments, in the Python keyword
order `beta_1, beta_2, clip_grads, epsilon, learning_rate,
learning_rate_decay, scale_grads`).  The `apply_*` flags are set from whether
the corresponding option is `None`, exactly as in the source; no validation of
any value is performed. -/
def Adam.init (beta_1 beta_2 : ℝ) (clip_grads : Option ℝ) (epsilon learning_rate : ℝ)
    (learning_rate_decay scale_grads : Option ℝ) : Adam :=
  { apply_clip_grads := clip_grads.isSome
    apply_learning_rate_decay := learning_rate_decay.isSome
    apply_scale_grads := scale_grads.isSome
    beta_1 := beta_1
    beta_2 := beta_2
    clip_grads := clip_grads
    epsilon := epsilon
    gradient_moment := []
    gradient_square_moment := []
    initial_learning_rate := learning_rate
    iteration_count := 0
    learning_rate := learning_rate
    learning_rate_decay := learning_rate_decay
    scale_grads := scale_grads }

/-- The local `learning_rate` computed at the top of `Adam.update`:
`initial_learning_rate * exp(-iteration_count / learning_rate_decay)` when
decay is enabled, else `initial_learning_rate`.  It reads the pre-increment
`iteration_count`. -/
noncomputable def Adam.effectiveLearningRate (self : Adam) : ℝ :=
  if self.apply_learning_rate_decay then
    self.initial_learning_rate *
      Real.exp (-((self.iteration_count : ℝ) / self.learning_rate_decay.getD 0))
  else self.initial_learning_rate

/-- The gradient-preprocessing pipeline of `Adam.update`: scaling to the
target L2 norm (when enabled) followed by elementwise clipping (when
enabled).  The norm used for scaling is the norm of the incoming raw
gradients, as in the source. -/
noncomputable def Adam.preprocessGrads (self : Adam) (grads : List ℝ) : List ℝ :=
  let scaled := if self.apply_scale_grads then
      grads.map (fun g => g / l2norm grads * self.scale_grads.getD 0)
    else grads
  if self.apply_clip_grads then
    scaled.map (fun g => npClip g (-(self.clip_grads.getD 0)) (self.clip_grads.getD 0))
  else scaled

/-- The bias-corrected first moment `gradient_moment_hat` computed by
`Adam.update`: the updated moment divided by `1 - beta_1 ^ iteration_count`,
where `iteration_count` is the post-increment counter. -/
noncomputable def Adam.momentHat (self : Adam) (grads : List ℝ) : List ℝ :=
  (List.zipWith (fun m g => self.beta_1 * m + (1 - self.beta_1) * g)
      self.gradient_moment (self.preprocessGrads grads)).map
    (fun m => m / (1 - self.beta_1 ^ (self.iteration_count + 1)))

/-- The bias-corrected second moment `gradient_square_moment_hat` computed by
`Adam.update`: the updated squared moment divided by
`1 - beta_2 ^ iteration_count` (post-increment counter). -/
noncomputable def Adam.squareMomentHat (self : Adam) (grads : List ℝ) : List ℝ :=
  (List.zipWith (fun v g => self.beta_2 * v + (1 - self.beta_2) * g ^ 2)
      self.gradient_square_moment (self.preprocessGrads grads)).map
    (fun v => v / (1 - self.beta_2 ^ (self.iteration_count + 1)))

/-- Model of `Adam.update(grads, params)`.  Returns the mutated optimizer
object together with the new parameters
`params - learning_rate * m_hat / (sqrt v_hat + epsilon)`.  The iteration
counter is incremented before the bias corrections (which therefore use the
post-increment count), while `effectiveLearningRate` was computed from the
pre-increment count. -/
noncomputable def Adam.update (self : Adam) (grads params : List ℝ) : Adam × List ℝ :=
  ({ self with
      iteration_count := self.iteration_count + 1
      gradient_moment := List.zipWith (fun m g => self.beta_1 * m + (1 - self.beta_1) * g)
        self.gradient_moment (self.preprocessGrads grads)
      gradient_square_moment :=
        List.zipWith (fun v g => self.beta_2 * v + (1 - self.beta_2) * g ^ 2)
          self.gradient_square_moment (self.preprocessGrads grads) },
   zipWith3 (fun p mh vh => p - self.effectiveLearningRate * (mh / (Real.sqrt vh + self.epsilon)))
     params (self.momentHat grads) (self.squareMomentHat grads))

/-- The state reset performed at the top of `Adam.run`: iteration counter to
zero and both moments to zero arrays shaped like the initial parameters. -/
def Adam.reset (self : Adam) (initial_params : List ℝ) : Adam :=
  { self with
    iteration_count := 0
    gradient_moment := List.replicate initial_params.length 0
    gradient_square_moment := List.replicate initial_params.length 0 }

/-- Everything `Adam.run`'s loop produces: the final optimizer object, the
final (discarded by the Python code) parameters, the arguments of the
jacobian calls in order, and the parameters after each `update`. -/
structure RunResult where
  finalSelf : Adam
  finalParams : List ℝ
  jacArgs : List (List ℝ)
  trajectory : List (List ℝ)

/-- The loop of `Adam.run`: `iteration_count` times, call the jacobian at the
current parameters and feed the result to `update`. -/
noncomputable def Adam.runLoop : Adam → ℕ → List ℝ → (List ℝ → List ℝ) → RunResult
  | self, 0, params, _ => ⟨self, params, [], []⟩
  | self, n + 1, params, jac =>
    let grads := jac params
    let step := self.update grads params
    let rest := Adam.runLoop step.1 n step.2 jac
    ⟨rest.finalSelf, rest.finalParams, params :: rest.jacArgs, step.2 :: rest.trajectory⟩

/-- Model of `Adam.run(args, function, iteration_count, initial_params,
jacobian)`.  The opaque `args`/`function` arguments play no role in the body
other than being forwarded to the jacobian, so the jacobian is modelled as a
closed function of the parameters.  The Python method returns `None`; its
whole effect is the mutated optimizer object, which is what this model
returns. -/
noncomputable def Adam.run (self : Adam) (iteration_count : ℕ) (initial_params : List ℝ)
    (jacobian : List ℝ → List ℝ) : Adam :=
  (Adam.runLoop (self.reset initial_params) iteration_count initial_params jacobian).finalSelf

/-- The list of parameter values at which `run` invokes the jacobian. -/
noncomputable def Adam.runJacArgs (self : Adam) (iteration_count : ℕ)
    (initial_params : List ℝ) (jacobian : List ℝ → List ℝ) : List (List ℝ) :=
  (Adam.runLoop (self.reset initial_params) iteration_count initial_params jacobian).jacArgs

/-- The parameter trajectory of a `run`: the parameters after each of the
`iteration_count` updates. -/
noncomputable def Adam.runTrajectory (self : Adam) (iteration_count : ℕ)
    (initial_params : List ℝ) (jacobian : List ℝ → List ℝ) : List (List ℝ) :=
  (Adam.runLoop (self.reset initial_params) iteration_count initial_params jacobian).trajectory

/-- A division in `Adam.update` is degenerate: its denominator is zero (or a
square root receives a negative argument).  At such a point numpy produces
`inf` or `nan` instead of a real number. -/
def Adam.UpdateDegenerate (self : Adam) (grads : List ℝ) : Prop :=
  (self.apply_learning_rate_decay = true ∧ self.learning_rate_decay.getD 0 = 0) ∨
  (self.apply_scale_grads = true ∧ l2norm grads = 0) ∨
  1 - self.beta_1 ^ (self.iteration_count + 1) = 0 ∨
  1 - self.beta_2 ^ (self.iteration_count + 1) = 0 ∨
  ∃ v ∈ self.squareMomentHat grads, v < 0 ∨ Real.sqrt v + self.epsilon = 0

open Classical in
/-- Checked variant of `Adam.update`: `none` when some division of the update
has a zero denominator (or a square root a negative argument), the cases in
which the floating-point computation produces non-finite values; otherwise
the result of `Adam.update`, whose total real arithmetic then agrees with the
floating-point data flow. -/
noncomputable def Adam.updateChecked (self : Adam) (grads params : List ℝ) :
    Option (Adam × List ℝ) :=
  if self.UpdateDegenerate grads then none else some (self.update grads params)

/-- The immutable configuration fields of an optimizer object: every field
except the mutable state `{iteration_count, gradient_moment,
gradient_square_moment}`. -/
def Adam.config (self : Adam) :
    Bool × Bool × Bool × ℝ × ℝ × Option ℝ × ℝ × ℝ × ℝ × Option ℝ × Option ℝ :=
  (self.apply_clip_grads, self.apply_learning_rate_decay, self.apply_scale_grads,
   self.beta_1, self.beta_2, self.clip_grads, self.epsilon,
   self.initial_learning_rate, self.learning_rate, self.learning_rate_decay,
   self.scale_grads)

/-- Model of `np.allclose` with its default tolerances
(`rtol = 1e-5`, `atol = 1e-8`): elementwise `|a - b| ≤ atol + rtol * |b|`,
over lists of equal length. -/
def allclose (a b : List ℝ) : Prop :=
  List.Forall₂ (fun x y => |x - y| ≤ 1e-8 + 1e-5 * |y|) a b

/-- Modelled from the spec: the configuration validity that the spec's
`ConfigurationError` (section 7) is meant to enforce at construction —
non-negative `beta` values and a nonzero `epsilon`.  No such check exists in
the source. -/
def ConfigurationOk (beta_1 beta_2 epsilon : ℝ) : Prop :=
  0 ≤ beta_1 ∧ 0 ≤ beta_2 ∧ epsilon ≠ 0

/-! ### Shared helper lemmas -/

theorem sqrt_four : Real.sqrt 4 = 2 := by
  rw [show (4 : ℝ) = 2 ^ 2 by norm_num, Real.sqrt_sq (by norm_num)]

theorem sqrt_nine : Real.sqrt 9 = 3 := by
  rw [show (9 : ℝ) = 3 ^ 2 by norm_num, Real.sqrt_sq (by norm_num)]

theorem sqrt_twentyfive : Real.sqrt 25 = 5 := by
  rw [show (25 : ℝ) = 5 ^ 2 by norm_num, Real.sqrt_sq (by norm_num)]

theorem l2norm_replicate_zero (n : ℕ) : l2norm (List.replicate n 0) = 0 := by
  simp [l2norm]

theorem update_config (self : Adam) (grads params : List ℝ) :
    (self.update grads params).1.config = self.config := rfl

theorem update_count (self : Adam) (grads params : List ℝ) :
    (self.update grads params).1.iteration_count = self.iteration_count + 1 := rfl

theorem reset_config (self : Adam) (p : List ℝ) : (self.reset p).config = self.config := rfl

theorem runLoop_config (n : ℕ) : ∀ (self : Adam) (params : List ℝ)
    (jac : List ℝ → List ℝ), (Adam.runLoop self n params jac).finalSelf.config = self.config := by
  induction n with
  | zero => intro self params jac; rfl
  | succ n ih =>
    intro self params jac
    rw [Adam.runLoop]
    exact (ih _ _ _).trans (update_config ..)

theorem runLoop_count (n : ℕ) : ∀ (self : Adam) (params : List ℝ)
    (jac : List ℝ → List ℝ),
    (Adam.runLoop self n params jac).finalSelf.iteration_count = self.iteration_count + n := by
  induction n with
  | zero => intro self params jac; rfl
  | succ n ih =>
    intro self params jac
    rw [Adam.runLoop]
    show (Adam.runLoop _ n _ _).finalSelf.iteration_count = _
    rw [ih, update_count]
    omega

theorem runLoop_jacArgs_length (n : ℕ) : ∀ (self : Adam) (params : List ℝ)
    (jac : List ℝ → List ℝ), (Adam.runLoop self n params jac).jacArgs.length = n := by
  induction n with
  | zero => intro self params jac; rfl
  | succ n ih =>
    intro self params jac
    rw [Adam.runLoop]
    show (_ :: (Adam.runLoop _ n _ _).jacArgs).length = _
    rw [List.length_cons, ih]

theorem reset_eq_of_config {s₁ s₂ : Adam} (h : s₁.config = s₂.config) (p : List ℝ) :
    s₁.reset p = s₂.reset p := by
  cases s₁; cases s₂
  simp only [Adam.config, Prod.mk.injEq] at h
  obtain ⟨h1, h2, h3, h4, h5, h6, h7, h8, h9, h10, h11⟩ := h
  simp only [Adam.reset]
  ext <;> simp_all

theorem zipWith_replicate_left {α β : Type} (f : α → β → β) (a : α) :
    ∀ (l : List β) (n : ℕ), l.length = n →
      List.zipWith f (List.replicate n a) l = l.map (fun x => f a x) := by
  intro l
  induction l with
  | nil => intro n _; simp
  | cons x xs ih =>
    intro n hn
    cases n with
    | zero => simp at hn
    | succ m =>
      simp only [List.replicate, List.zipWith_cons_cons, List.map_cons]
      rw [ih m (by simpa using hn)]

theorem zipWith3_left_id {β γ : Type} (f : ℝ → β → γ → ℝ) :
    ∀ (p : List ℝ) (bs : List β) (cs : List γ),
      p.length ≤ bs.length → p.length ≤ cs.length →
      (∀ (x : ℝ) (b : β) (c : γ), b ∈ bs → c ∈ cs → f x b c = x) →
      zipWith3 f p bs cs = p := by
  intro p
  induction p with
  | nil => intro bs cs _ _ _; cases bs <;> cases cs <;> rfl
  | cons x xs ih =>
    intro bs cs hb hc hf
    cases bs with
    | nil => simp at hb
    | cons b bs' =>
      cases cs with
      | nil => simp at hc
      | cons c cs' =>
        simp only [zipWith3]
        rw [hf x b c (by simp) (by simp),
          ih bs' cs' (by simpa using hb) (by simpa using hc)
            (fun y b' c' hb' hc' => hf y b' c' (by simp [hb']) (by simp [hc']))]

/-! ### Claim theorems -/

/-- C3 counterexample: constructing an Adam optimizer with a negative
`beta_1`, a negative `beta_2` and a zero `epsilon` — a configuration the
spec's `ConfigurationError` should reject — succeeds and stores the invalid
values verbatim: nothing fails fast at construction. -/
theorem C3_counterexample :
    ¬ ConfigurationOk (-1) (-1) 0 ∧
    (Adam.init (-1) (-1) none 0 1e-3 none none).beta_1 = -1 ∧
    (Adam.init (-1) (-1) none 0 1e-3 none none).beta_2 = -1 ∧
    (Adam.init (-1) (-1) none 0 1e-3 none none).epsilon = 0 := by
  refine ⟨fun h => ?_, rfl, rfl, rfl⟩
  have := h.1
  norm_num at this

/-- C3 amended: `Adam.__init__` performs no validation whatsoever — every
option value, including negative betas and a zero epsilon, is accepted and
stored unchanged (never rejected, never clamped). -/
theorem C3_init_stores_verbatim (b1 b2 : ℝ) (cg : Option ℝ) (eps lr : ℝ)
    (d sg : Option ℝ) :
    (Adam.init b1 b2 cg eps lr d sg).beta_1 = b1 ∧
    (Adam.init b1 b2 cg eps lr d sg).beta_2 = b2 ∧
    (Adam.init b1 b2 cg eps lr d sg).clip_grads = cg ∧
    (Adam.init b1 b2 cg eps lr d sg).epsilon = eps ∧
    (Adam.init b1 b2 cg eps lr d sg).initial_learning_rate = lr ∧
    (Adam.init b1 b2 cg eps lr d sg).learning_rate = lr ∧
    (Adam.init b1 b2 cg eps lr d sg).learning_rate_decay = d ∧
    (Adam.init b1 b2 cg eps lr d sg).scale_grads = sg ∧
    (Adam.init b1 b2 cg eps lr d sg).iteration_count = 0 :=
  ⟨rfl, rfl, rfl, rfl, rfl, rfl, rfl, rfl, rfl⟩

/-- C9: `update` increments the iteration counter by exactly one and leaves
every configuration field (the apply flags, `beta_1`, `beta_2`, `clip_grads`,
`epsilon`, `initial_learning_rate`, `learning_rate`, `learning_rate_decay`,
`scale_grads`) unchanged; being a pure function of its arguments, it cannot
mutate the gradient or parameter lists it receives. -/
theorem C9_update_frame (self : Adam) (grads params : List ℝ) :
    (self.update grads params).1.iteration_count = self.iteration_count + 1 ∧
    (self.update grads params).1.apply_clip_grads = self.apply_clip_grads ∧
    (self.update grads params).1.apply_learning_rate_decay = self.apply_learning_rate_decay ∧
    (self.update grads params).1.apply_scale_grads = self.apply_scale_grads ∧
    (self.update grads params).1.beta_1 = self.beta_1 ∧
    (self.update grads params).1.beta_2 = self.beta_2 ∧
    (self.update grads params).1.clip_grads = self.clip_grads ∧
    (self.update grads params).1.epsilon = self.epsilon ∧
    (self.update grads params).1.initial_learning_rate = self.initial_learning_rate ∧
    (self.update grads params).1.learning_rate = self.learning_rate ∧
    (self.update grads params).1.learning_rate_decay = self.learning_rate_decay ∧
    (self.update grads params).1.scale_grads = self.scale_grads :=
  ⟨rfl, rfl, rfl, rfl, rfl, rfl, rfl, rfl, rfl, rfl, rfl, rfl⟩

/-- C8: `run` makes exactly `n` jacobian calls (and `n` updates, so the final
iteration counter is `n`); with `n = 0` the optimizer is left exactly in its
reset condition: iteration counter zero and both moment estimates zero arrays
shaped like the initial parameters.  The Python method returns `None`: its
entire effect is this mutated state. -/
theorem C8_run_resets_and_iterates (self : Adam) (n : ℕ) (p0 : List ℝ)
    (jac : List ℝ → List ℝ) :
    (self.runJacArgs n p0 jac).length = n ∧
    (self.run n p0 jac).iteration_count = n ∧
    self.run 0 p0 jac = self.reset p0 ∧
    (self.reset p0).iteration_count = 0 ∧
    (self.reset p0).gradient_moment = List.replicate p0.length 0 ∧
    (self.reset p0).gradient_square_moment = List.replicate p0.length 0 := by
  refine ⟨runLoop_jacArgs_length n _ p0 jac, ?_, rfl, rfl, rfl, rfl⟩
  show (Adam.runLoop (self.reset p0) n p0 jac).finalSelf.iteration_count = n
  rw [runLoop_count]
  show 0 + n = n
  omega

/-- C7: two invocations of `run` on the same optimizer instance with the same
iteration budget, initial parameters and (deterministic, purely functional)
jacobian produce identical parameter trajectories: `run` re-initializes all
mutable state, so nothing leaks from the first run into the second. -/
theorem C7_run_deterministic (self : Adam) (n : ℕ) (p0 : List ℝ)
    (jac : List ℝ → List ℝ) :
    (self.run n p0 jac).runTrajectory n p0 jac = self.runTrajectory n p0 jac := by
  show (Adam.runLoop ((self.run n p0 jac).reset p0) n p0 jac).trajectory =
    (Adam.runLoop (self.reset p0) n p0 jac).trajectory
  have hcfg : (self.run n p0 jac).config = self.config := by
    show (Adam.runLoop (self.reset p0) n p0 jac).finalSelf.config = self.config
    rw [runLoop_config, reset_config]
  rw [reset_eq_of_config hcfg p0]

theorem preprocess_length (self : Adam) (g : List ℝ) :
    (self.preprocessGrads g).length = g.length := by
  unfold Adam.preprocessGrads
  split <;> split <;> simp

/-- C4: on the first `update` after a reset (iteration counter 0, zero first
moment), the counter is incremented to 1 before the moment updates, so with
`beta_1 = 0.9` the bias-correction denominator is exactly
`1 - 0.9 ^ 1 = 0.1` and `m_hat = m / 0.1` recovers the preprocessed gradient
exactly; the learning-rate-decay exponent uses the pre-increment count 0, so
the effective learning rate is the undecayed initial rate. -/
theorem C4_first_update (self : Adam) (g p : List ℝ) (n : ℕ)
    (h0 : self.iteration_count = 0)
    (hm : self.gradient_moment = List.replicate n 0)
    (hg : g.length = n)
    (hb1 : self.beta_1 = 0.9)
    (_hd : self.apply_learning_rate_decay = true → self.learning_rate_decay.getD 0 ≠ 0) :
    (self.update g p).1.iteration_count = 1 ∧
    self.effectiveLearningRate = self.initial_learning_rate ∧
    (1 : ℝ) - self.beta_1 ^ (self.iteration_count + 1) = 0.1 ∧
    self.momentHat g = self.preprocessGrads g := by
  refine ⟨by rw [update_count, h0], ?_, by rw [hb1, h0]; norm_num, ?_⟩
  · unfold Adam.effectiveLearningRate
    split
    · rw [h0]
      norm_num
    · rfl
  · unfold Adam.momentHat
    rw [hm, h0, zipWith_replicate_left _ _ _ n (by rw [preprocess_length, hg]),
      List.map_map]
    nth_rewrite 2 [show self.preprocessGrads g = (self.preprocessGrads g).map id by simp]
    apply List.map_congr_left
    intro x _
    simp only [Function.comp_apply, hb1, id]
    norm_num

/-- C4 witness: the first update of a freshly reset default-configuration
optimizer on concrete one-element arrays. -/
theorem C4_first_update_witness :
    (((Adam.init 0.9 0.999 none 1e-8 1e-3 none none).reset [1]).iteration_count = 0 ∧
      ((Adam.init 0.9 0.999 none 1e-8 1e-3 none none).reset [1]).gradient_moment =
        List.replicate 1 0 ∧
      ([(2 : ℝ)]).length = 1 ∧
      ((Adam.init 0.9 0.999 none 1e-8 1e-3 none none).reset [1]).beta_1 = 0.9) ∧
    ((((Adam.init 0.9 0.999 none 1e-8 1e-3 none none).reset [1]).update [2] [1]).1.iteration_count
        = 1 ∧
      ((Adam.init 0.9 0.999 none 1e-8 1e-3 none none).reset [1]).effectiveLearningRate =
        ((Adam.init 0.9 0.999 none 1e-8 1e-3 none none).reset [1]).initial_learning_rate ∧
      (1 : ℝ) - ((Adam.init 0.9 0.999 none 1e-8 1e-3 none none).reset [1]).beta_1 ^
          (((Adam.init 0.9 0.999 none 1e-8 1e-3 none none).reset [1]).iteration_count + 1) = 0.1 ∧
      ((Adam.init 0.9 0.999 none 1e-8 1e-3 none none).reset [1]).momentHat [2] =
        ((Adam.init 0.9 0.999 none 1e-8 1e-3 none none).reset [1]).preprocessGrads [2]) :=
  ⟨⟨rfl, rfl, rfl, rfl⟩,
    C4_first_update ((Adam.init 0.9 0.999 none 1e-8 1e-3 none none).reset [1]) [2] [1] 1
      rfl rfl rfl rfl (by simp [Adam.init, Adam.reset])⟩

/-- C5 counterexample: with scaling to norm 1 and a negative clip bound of
-1 (which the constructor accepts, see C3), `np.clip(g, 1, -1)` maps every
element to -1, which does not lie in the empty interval
`[-bound, +bound] = [1, -1]`: the claim's elementwise bound fails. -/
theorem C5_counterexample :
    ¬ ∀ x ∈ (Adam.init 0.9 0.999 (some (-1)) 1e-8 1e-3 none (some 1)).preprocessGrads [3, 4],
        -((Adam.init 0.9 0.999 (some (-1)) 1e-8 1e-3 none (some 1)).clip_grads.getD 0) ≤ x ∧
        x ≤ (Adam.init 0.9 0.999 (some (-1)) 1e-8 1e-3 none (some 1)).clip_grads.getD 0 := by
  intro h
  have hpre : (Adam.init 0.9 0.999 (some (-1)) 1e-8 1e-3 none (some 1)).preprocessGrads [3, 4]
      = [-1, -1] := by
    unfold Adam.preprocessGrads
    have hn : l2norm [3, 4] = 5 := by
      unfold l2norm
      rw [show ((([3, 4] : List ℝ).map (fun x => x ^ 2)).sum : ℝ) = 25 by norm_num]
      exact sqrt_twentyfive
    simp only [Adam.init, Option.isSome_some, if_pos, hn, List.map_cons, List.map_nil,
      Option.getD_some, npClip]
    norm_num [min_def, max_def]
  rw [hpre] at h
  have := (h (-1) (by simp)).1
  simp only [Adam.init, Option.getD_some] at this
  norm_num at this

/-- C5 amended: when both scaling and clipping are enabled, `update` consumes
the gradient obtained by first rescaling the raw gradient to the target L2
norm and then clipping every element to `[-bound, +bound]`; provided the
configured clip bound is nonnegative, every element of the consumed gradient
lies within `[-bound, +bound]`. -/
theorem C5_scale_then_clip (self : Adam) (g : List ℝ)
    (hs : self.apply_scale_grads = true) (hc : self.apply_clip_grads = true)
    (hb : 0 ≤ self.clip_grads.getD 0) :
    self.preprocessGrads g =
      (g.map (fun x => x / l2norm g * self.scale_grads.getD 0)).map
        (fun x => npClip x (-(self.clip_grads.getD 0)) (self.clip_grads.getD 0)) ∧
    ∀ x ∈ self.preprocessGrads g,
      -(self.clip_grads.getD 0) ≤ x ∧ x ≤ self.clip_grads.getD 0 := by
  have hpre : self.preprocessGrads g =
      (g.map (fun x => x / l2norm g * self.scale_grads.getD 0)).map
        (fun x => npClip x (-(self.clip_grads.getD 0)) (self.clip_grads.getD 0)) := by
    unfold Adam.preprocessGrads
    rw [if_pos hs, if_pos hc]
  refine ⟨hpre, ?_⟩
  intro x hx
  rw [hpre] at hx
  obtain ⟨y, _, hy⟩ := List.mem_map.mp hx
  subst hy
  unfold npClip
  constructor
  · exact le_min (neg_le_self hb) (le_max_right _ _)
  · exact min_le_left _ _

/-- C5 witness: scaling to norm 5 then clipping at bound 1 on the concrete
gradient `[3, 4]`. -/
theorem C5_scale_then_clip_witness :
    ((Adam.init 0.9 0.999 (some 1) 1e-8 1e-3 none (some 5)).apply_scale_grads = true ∧
      (Adam.init 0.9 0.999 (some 1) 1e-8 1e-3 none (some 5)).apply_clip_grads = true ∧
      (0 : ℝ) ≤ (Adam.init 0.9 0.999 (some 1) 1e-8 1e-3 none (some 5)).clip_grads.getD 0) ∧
    ((Adam.init 0.9 0.999 (some 1) 1e-8 1e-3 none (some 5)).preprocessGrads [3, 4] =
      (([3, 4] : List ℝ).map (fun x => x / l2norm [3, 4] *
          (Adam.init 0.9 0.999 (some 1) 1e-8 1e-3 none (some 5)).scale_grads.getD 0)).map
        (fun x => npClip x
          (-((Adam.init 0.9 0.999 (some 1) 1e-8 1e-3 none (some 5)).clip_grads.getD 0))
          ((Adam.init 0.9 0.999 (some 1) 1e-8 1e-3 none (some 5)).clip_grads.getD 0)) ∧
      ∀ x ∈ (Adam.init 0.9 0.999 (some 1) 1e-8 1e-3 none (some 5)).preprocessGrads [3, 4],
        -((Adam.init 0.9 0.999 (some 1) 1e-8 1e-3 none (some 5)).clip_grads.getD 0) ≤ x ∧
        x ≤ (Adam.init 0.9 0.999 (some 1) 1e-8 1e-3 none (some 5)).clip_grads.getD 0) :=
  ⟨⟨rfl, rfl, by norm_num [Adam.init]⟩,
    C5_scale_then_clip (Adam.init 0.9 0.999 (some 1) 1e-8 1e-3 none (some 5)) [3, 4]
      rfl rfl (by norm_num [Adam.init])⟩

/-- C6 counterexample: with decay enabled and a (constructor-accepted)
negative decay constant of -1, the effective learning rate grows:
at iteration 1 it is `1e-3 * exp(1)`, strictly greater than the
`1e-3 * exp(0)` of iteration 0, so the claimed strict decrease fails at
`k = 0`. -/
theorem C6_counterexample :
    ¬ ({ Adam.init 0.9 0.999 none 1e-8 1e-3 (some (-1)) none with
          iteration_count := 1 } : Adam).effectiveLearningRate <
      ({ Adam.init 0.9 0.999 none 1e-8 1e-3 (some (-1)) none with
          iteration_count := 0 } : Adam).effectiveLearningRate := by
  unfold Adam.effectiveLearningRate
  simp only [Adam.init, Option.isSome_some, if_pos, Option.getD_some, not_lt,
    Nat.cast_one, Nat.cast_zero]
  have h : ((0 : ℝ) / (-1)) = 0 := by norm_num
  rw [h, neg_zero, Real.exp_zero, mul_one]
  have h1 : -((1 : ℝ) / (-1)) = 1 := by norm_num
  rw [h1]
  nlinarith [Real.exp_one_gt_d9]

/-- C6 amended: when learning-rate decay is enabled with a positive decay
constant and a positive initial learning rate, the effective learning rate at
iteration count `k` equals `initial_rate * exp(-k / decay_constant)` and is
strictly decreasing: the rate at `k + 1` is strictly below the rate at `k`
for every `k ≥ 0`. -/
theorem C6_decay_monotone (self : Adam)
    (ha : self.apply_learning_rate_decay = true)
    (hd : 0 < self.learning_rate_decay.getD 0)
    (hlr : 0 < self.initial_learning_rate) :
    (∀ k : ℕ, ({ self with iteration_count := k } : Adam).effectiveLearningRate =
        self.initial_learning_rate *
          Real.exp (-((k : ℝ) / self.learning_rate_decay.getD 0))) ∧
    ∀ k : ℕ, ({ self with iteration_count := k + 1 } : Adam).effectiveLearningRate <
        ({ self with iteration_count := k } : Adam).effectiveLearningRate := by
  have hall : ∀ k : ℕ, ({ self with iteration_count := k } : Adam).effectiveLearningRate =
      self.initial_learning_rate *
        Real.exp (-((k : ℝ) / self.learning_rate_decay.getD 0)) := by
    intro k
    unfold Adam.effectiveLearningRate
    rw [if_pos ha]
  refine ⟨hall, fun k => ?_⟩
  rw [hall k, hall (k + 1)]
  apply mul_lt_mul_of_pos_left _ hlr
  rw [Real.exp_lt_exp, neg_lt_neg_iff, div_lt_div_iff_of_pos_right hd]
  push_cast
  linarith

/-- C6 witness: a concrete decay-enabled configuration with decay constant
100 and initial learning rate `1e-3`, evaluated at `k = 0`. -/
theorem C6_decay_monotone_witness :
    ((Adam.init 0.9 0.999 none 1e-8 1e-3 (some 100) none).apply_learning_rate_decay = true ∧
      (0 : ℝ) < (Adam.init 0.9 0.999 none 1e-8 1e-3 (some 100) none).learning_rate_decay.getD 0 ∧
      (0 : ℝ) < (Adam.init 0.9 0.999 none 1e-8 1e-3 (some 100) none).initial_learning_rate) ∧
    ({ Adam.init 0.9 0.999 none 1e-8 1e-3 (some 100) none with iteration_count := 1 } :
        Adam).effectiveLearningRate <
      ({ Adam.init 0.9 0.999 none 1e-8 1e-3 (some 100) none with iteration_count := 0 } :
        Adam).effectiveLearningRate :=
  ⟨⟨rfl, by norm_num [Adam.init], by norm_num [Adam.init]⟩,
    (C6_decay_monotone (Adam.init 0.9 0.999 none 1e-8 1e-3 (some 100) none) rfl
      (by norm_num [Adam.init]) (by norm_num [Adam.init])).2 0⟩

theorem preprocess_zero (self : Adam) (n : ℕ)
    (hscale : self.apply_scale_grads = false)
    (hclip : self.apply_clip_grads = true → 0 ≤ self.clip_grads.getD 0) :
    self.preprocessGrads (List.replicate n 0) = List.replicate n 0 := by
  unfold Adam.preprocessGrads
  rw [hscale]
  simp only [Bool.false_eq_true, if_false]
  split
  · rename_i hc
    rw [List.map_replicate]
    have hb := hclip hc
    have : npClip 0 (-(self.clip_grads.getD 0)) (self.clip_grads.getD 0) = 0 := by
      unfold npClip
      rw [max_eq_left (by linarith), min_eq_right hb]
    rw [this]
  · rfl

/-- C2 counterexample: for a configuration with gradient scaling enabled
(target norm 1) and freshly reset state, `update` on the all-zero gradient
divides by the zero gradient norm — numpy produces NaN parameters, so the
parameters are not returned unchanged; the claim's "every Adam
configuration" fails. -/
theorem C2_counterexample :
    ((Adam.init 0.9 0.999 none 1e-8 1e-3 none (some 1)).reset [0]).updateChecked [0] [0]
      = none ∧
    (((Adam.init 0.9 0.999 none 1e-8 1e-3 none (some 1)).reset [0]).updateChecked [0] [0]).map
      Prod.snd ≠ some [0] := by
  have h : ((Adam.init 0.9 0.999 none 1e-8 1e-3 none (some 1)).reset [0]).updateChecked [0] [0]
      = none := by
    unfold Adam.updateChecked
    rw [if_pos]
    refine Or.inr (Or.inl ⟨rfl, ?_⟩)
    unfold l2norm
    norm_num
  exact ⟨h, by rw [h]; simp⟩

/-- C2 amended: for every configuration with gradient scaling disabled, a
nonnegative clip bound if clipping is enabled, nondegenerate bias-correction
denominators (`beta_i ^ (count+1) ≠ 1`), a positive epsilon and a nonzero
decay constant if decay is enabled, `update` applied to the all-zero gradient
from zero moment estimates returns the parameters unchanged and leaves both
moment estimates at zero. -/
theorem C2_zero_gradient_noop (self : Adam) (params : List ℝ) (n : ℕ)
    (hscale : self.apply_scale_grads = false)
    (hclip : self.apply_clip_grads = true → 0 ≤ self.clip_grads.getD 0)
    (hm : self.gradient_moment = List.replicate n 0)
    (hv : self.gradient_square_moment = List.replicate n 0)
    (hp : params.length = n)
    (hb1 : self.beta_1 ^ (self.iteration_count + 1) ≠ 1)
    (hb2 : self.beta_2 ^ (self.iteration_count + 1) ≠ 1)
    (he : 0 < self.epsilon)
    (hd : self.apply_learning_rate_decay = true → self.learning_rate_decay.getD 0 ≠ 0) :
    self.updateChecked (List.replicate n 0) params =
      some (self.update (List.replicate n 0) params) ∧
    (self.update (List.replicate n 0) params).1.gradient_moment = List.replicate n 0 ∧
    (self.update (List.replicate n 0) params).1.gradient_square_moment = List.replicate n 0 ∧
    (self.update (List.replicate n 0) params).2 = params := by
  have hpre := preprocess_zero self n hscale hclip
  have hmom : List.zipWith (fun m g => self.beta_1 * m + (1 - self.beta_1) * g)
      self.gradient_moment (self.preprocessGrads (List.replicate n 0)) =
      List.replicate n 0 := by
    rw [hm, hpre, zipWith_replicate_left _ _ _ n (by simp), List.map_replicate]
    norm_num
  have hsq : List.zipWith (fun v g => self.beta_2 * v + (1 - self.beta_2) * g ^ 2)
      self.gradient_square_moment (self.preprocessGrads (List.replicate n 0)) =
      List.replicate n 0 := by
    rw [hv, hpre, zipWith_replicate_left _ _ _ n (by simp), List.map_replicate]
    norm_num
  have hmhat : self.momentHat (List.replicate n 0) = List.replicate n 0 := by
    unfold Adam.momentHat
    rw [hmom, List.map_replicate, zero_div]
  have hvhat : self.squareMomentHat (List.replicate n 0) = List.replicate n 0 := by
    unfold Adam.squareMomentHat
    rw [hsq, List.map_replicate, zero_div]
  have hdeg : ¬ self.UpdateDegenerate (List.replicate n 0) := by
    intro h
    rcases h with ⟨ha, h0⟩ | ⟨hs, _⟩ | h1 | h2 | ⟨v, hvmem, hcase⟩
    · exact hd ha h0
    · rw [hscale] at hs
      exact Bool.false_ne_true hs
    · exact hb1 (by linarith [sub_eq_zero.mp h1])
    · exact hb2 (by linarith [sub_eq_zero.mp h2])
    · rw [hvhat] at hvmem
      have hv0 : v = 0 := List.eq_of_mem_replicate hvmem
      subst hv0
      rcases hcase with h | h
      · exact absurd h (lt_irrefl 0)
      · rw [Real.sqrt_zero, zero_add] at h
        exact he.ne' h
  have hparams : (self.update (List.replicate n 0) params).2 = params := by
    show zipWith3 _ params (self.momentHat (List.replicate n 0))
      (self.squareMomentHat (List.replicate n 0)) = params
    rw [hmhat, hvhat]
    apply zipWith3_left_id
    · simp [hp]
    · simp [hp]
    · intro x mh vh hmh hvh
      rw [List.eq_of_mem_replicate hmh, List.eq_of_mem_replicate hvh,
        zero_div, mul_zero, sub_zero]
  refine ⟨?_, hmom, hsq, hparams⟩
  unfold Adam.updateChecked
  rw [if_neg hdeg]

/-- C2 witness: the default configuration freshly reset on `[5, 7]`, updated
with the zero gradient, returns `[5, 7]` unchanged. -/
theorem C2_zero_gradient_noop_witness :
    (((Adam.init 0.9 0.999 none 1e-8 1e-3 none none).reset [5, 7]).apply_scale_grads = false ∧
      ((Adam.init 0.9 0.999 none 1e-8 1e-3 none none).reset [5, 7]).gradient_moment =
        List.replicate 2 0 ∧
      ([(5 : ℝ), 7]).length = 2 ∧
      ((Adam.init 0.9 0.999 none 1e-8 1e-3 none none).reset [5, 7]).beta_1 ^
        (((Adam.init 0.9 0.999 none 1e-8 1e-3 none none).reset [5, 7]).iteration_count + 1) ≠ 1 ∧
      (0 : ℝ) < ((Adam.init 0.9 0.999 none 1e-8 1e-3 none none).reset [5, 7]).epsilon) ∧
    (((Adam.init 0.9 0.999 none 1e-8 1e-3 none none).reset [5, 7]).update
        (List.replicate 2 0) [5, 7]).2 = [5, 7] :=
  ⟨⟨rfl, rfl, rfl, by norm_num [Adam.init, Adam.reset], by norm_num [Adam.init, Adam.reset]⟩,
    (C2_zero_gradient_noop ((Adam.init 0.9 0.999 none 1e-8 1e-3 none none).reset [5, 7])
      [5, 7] 2 rfl (by intro h; simp [Adam.init, Adam.reset] at h) rfl rfl rfl
      (by norm_num [Adam.init, Adam.reset]) (by norm_num [Adam.init, Adam.reset])
      (by norm_num [Adam.init, Adam.reset])
      (by intro h; simp [Adam.init, Adam.reset] at h)).2.2.2⟩

/-- C10: whenever gradient scaling is enabled, `update` on the all-zero
gradient vector divides the gradient by its zero L2 norm with no guard; the
`0/0` produces NaN entries that propagate through the moment updates to every
returned parameter, modelled here by the checked update returning `none`. -/
theorem C10_zero_norm_scaling (self : Adam) (params : List ℝ) (n : ℕ)
    (h : self.apply_scale_grads = true) :
    self.updateChecked (List.replicate n 0) params = none := by
  unfold Adam.updateChecked
  rw [if_pos]
  exact Or.inr (Or.inl ⟨h, l2norm_replicate_zero n⟩)

/-- C10 witness: a concrete scaling-enabled configuration on a two-element
zero gradient. -/
theorem C10_zero_norm_scaling_witness :
    (Adam.init 0.9 0.999 none 1e-8 1e-3 none (some 2)).apply_scale_grads = true ∧
    (Adam.init 0.9 0.999 none 1e-8 1e-3 none (some 2)).updateChecked
      (List.replicate 2 0) [1, 2] = none :=
  ⟨rfl, C10_zero_norm_scaling (Adam.init 0.9 0.999 none 1e-8 1e-3 none (some 2)) [1, 2] 2 rfl⟩

/-- Concrete flattened gradients of the module test in `adam.py`
(`[[0, 1], [2, 3]]`). -/
def adamTestGrads : List ℝ := [0, 1, 2, 3]

/-- Concrete flattened parameters of the module test (`[[0, 1], [2, 3]]`). -/
def adamTestParams : List ℝ := [0, 1, 2, 3]

/-- The default-configuration optimizer (`beta_1 = 0.9`, `beta_2 = 0.999`,
`epsilon = 1e-8`, `learning_rate = 1e-3`) after `run` with zero iterations on
the test parameters, which only resets the state. -/
noncomputable def adamTest0 : Adam :=
  (Adam.init 0.9 0.999 none 1e-8 1e-3 none none).run 0 adamTestParams (fun p => p)

/-- First `update(grads, params)` of the concrete scenario. -/
noncomputable def adamTestStep1 : Adam × List ℝ :=
  adamTest0.update adamTestGrads adamTestParams

/-- Second `update` with the same gradients on the parameters returned by the
first call. -/
noncomputable def adamTestStep2 : Adam × List ℝ :=
  adamTestStep1.1.update adamTestGrads adamTestStep1.2

theorem adamTest0_eval : adamTest0 =
    { apply_clip_grads := false
      apply_learning_rate_decay := false
      apply_scale_grads := false
      beta_1 := 0.9
      beta_2 := 0.999
      clip_grads := none
      epsilon := 1e-8
      gradient_moment := [0, 0, 0, 0]
      gradient_square_moment := [0, 0, 0, 0]
      initial_learning_rate := 1e-3
      iteration_count := 0
      learning_rate := 1e-3
      learning_rate_decay := none
      scale_grads := none } := rfl

theorem adamTestStep1_eval :
    adamTestStep1.2 = [0, 1 - 1e-3 * (1 / (1 + 1e-8)), 2 - 1e-3 * (2 / (2 + 1e-8)),
      3 - 1e-3 * (3 / (3 + 1e-8))] := by
  rw [show adamTestStep1 = adamTest0.update adamTestGrads adamTestParams from rfl,
    adamTest0_eval]
  simp only [Adam.update, Adam.momentHat, Adam.squareMomentHat, Adam.preprocessGrads,
    Adam.effectiveLearningRate, adamTestGrads, adamTestParams, Bool.false_eq_true, if_false,
    List.zipWith_cons_cons, List.zipWith_nil_right, List.map_cons, List.map_nil, zipWith3]
  norm_num [Real.sqrt_zero, Real.sqrt_one, sqrt_four, sqrt_nine]

theorem adamTestStep1_state : adamTestStep1.1 =
    { apply_clip_grads := false
      apply_learning_rate_decay := false
      apply_scale_grads := false
      beta_1 := 0.9
      beta_2 := 0.999
      clip_grads := none
      epsilon := 1e-8
      gradient_moment := [0, 0.1, 0.2, 0.3]
      gradient_square_moment := [0, 0.001, 0.004, 0.009]
      initial_learning_rate := 1e-3
      iteration_count := 1
      learning_rate := 1e-3
      learning_rate_decay := none
      scale_grads := none } := by
  rw [show adamTestStep1 = adamTest0.update adamTestGrads adamTestParams from rfl,
    adamTest0_eval]
  simp only [Adam.update, Adam.preprocessGrads, adamTestGrads, adamTestParams,
    Bool.false_eq_true, if_false, List.zipWith_cons_cons, List.zipWith_nil_right,
    Adam.mk.injEq]
  norm_num

theorem adamTestStep2_eval :
    adamTestStep2.2 = [0, 1 - 1e-3 * (1 / (1 + 1e-8)) - 1e-3 * (1 / (1 + 1e-8)),
      2 - 1e-3 * (2 / (2 + 1e-8)) - 1e-3 * (2 / (2 + 1e-8)),
      3 - 1e-3 * (3 / (3 + 1e-8)) - 1e-3 * (3 / (3 + 1e-8))] := by
  rw [show adamTestStep2 = adamTestStep1.1.update adamTestGrads adamTestStep1.2 from rfl,
    adamTestStep1_state, adamTestStep1_eval]
  simp only [Adam.update, Adam.momentHat, Adam.squareMomentHat, Adam.preprocessGrads,
    Adam.effectiveLearningRate, adamTestGrads, Bool.false_eq_true, if_false,
    List.zipWith_cons_cons, List.zipWith_nil_right, List.map_cons, List.map_nil, zipWith3]
  norm_num [Real.sqrt_zero, Real.sqrt_one, sqrt_four, sqrt_nine]

theorem allclose_elem {x y : ℝ} (hy : 0 ≤ y) (h1 : -(1e-8 + 1e-5 * y) ≤ x - y)
    (h2 : x - y ≤ 1e-8 + 1e-5 * y) : |x - y| ≤ 1e-8 + 1e-5 * |y| := by
  rw [abs_of_nonneg hy, abs_le]
  exact ⟨h1, h2⟩

theorem allclose_elem_not {x y : ℝ} (hy : 0 ≤ y) (h : x - y < -(1e-8 + 1e-5 * y)) :
    ¬ |x - y| ≤ 1e-8 + 1e-5 * |y| := by
  rw [abs_of_nonneg hy, abs_le]
  intro hh
  linarith [hh.1]

/-- C1 counterexample: a second `update` call with the same gradients
`[0, 1, 2, 3]` on the parameters returned by the first call yields
approximately `[0, 0.998, 1.998, 2.998]`, not the claimed
`[0, 0.99900003, 1.99900001, 2.99900001]` — at index 1 the computed value is
about `0.998`, more than `1e-3` away from the claimed `0.99900003`, far
outside the `np.allclose` tolerance.  (The claimed values are what the module
test obtains because it passes `update(params1, grads)`, with the two
arguments swapped relative to the `update(grads, params)` signature.) -/
theorem C1_counterexample :
    ¬ allclose adamTestStep2.2 [0, 0.99900003, 1.99900001, 2.99900001] := by
  rw [adamTestStep2_eval]
  unfold allclose
  intro h
  rcases h with _ | ⟨-, h⟩
  rcases h with _ | ⟨h1, -⟩
  exact allclose_elem_not (by norm_num) (by norm_num) h1

/-- C1 amended: from the freshly reset default configuration, the first
`update` with gradients `[0, 1, 2, 3]` on parameters `[0, 1, 2, 3]` returns
approximately `[0, 0.999, 1.999, 2.999]`, and a second `update` with the same
gradients on those returned parameters yields approximately
`[0, 0.998, 1.998, 2.998]`. -/
theorem C1_two_updates :
    allclose adamTestStep1.2 [0, 0.999, 1.999, 2.999] ∧
    allclose adamTestStep2.2 [0, 0.998, 1.998, 2.998] := by
  constructor
  · rw [adamTestStep1_eval]
    unfold allclose
    exact List.Forall₂.cons (allclose_elem (by norm_num) (by norm_num) (by norm_num))
      (List.Forall₂.cons (allclose_elem (by norm_num) (by norm_num) (by norm_num))
        (List.Forall₂.cons (allclose_elem (by norm_num) (by norm_num) (by norm_num))
          (List.Forall₂.cons (allclose_elem (by norm_num) (by norm_num) (by norm_num))
            List.Forall₂.nil)))
  · rw [adamTestStep2_eval]
    unfold allclose
    exact List.Forall₂.cons (allclose_elem (by norm_num) (by norm_num) (by norm_num))
      (List.Forall₂.cons (allclose_elem (by norm_num) (by norm_num) (by norm_num))
        (List.Forall₂.cons (allclose_elem (by norm_num) (by norm_num) (by norm_num))
          (List.Forall₂.cons (allclose_elem (by norm_num) (by norm_num) (by norm_num))
            List.Forall₂.nil)))
